import Mathlib

/-!
Shallow embedding of the conversational query client in
`src/frontend/pages/index.tsx` (the `ChatBox` component).

Each React state hook becomes a field of `ChatState`; each event handler
becomes a pure state-transition function.  Network calls are modelled by
passing the outcome of the request as an explicit parameter (`Option` or
`Except`), and each handler additionally returns the list of HTTP requests
it issued, so that properties such as "exactly one registry refresh is
triggered" can be stated.  JavaScript truthiness tests on strings
(`res.data.session_id`, `res.data.filename`) are modelled by comparison
with the empty string; an absent field is `Option.none`.
-/

/-- `Message.role` in the source: `"user" | "assistant"`. -/
inductive Role where
  | user
  | assistant
deriving DecidableEq, Repr

/-- The `Message` interface: `{ role, content }`. -/
structure Message where
  role : Role
  content : String
deriving DecidableEq, Repr

/-- The `Document` interface: document descriptors returned by `GET /documents`. -/
structure Document where
  doc_id : String
  original_filename : String
  file_type : String
  upload_date : String
  chunks : Nat
deriving DecidableEq, Repr

/-- The component state: one field per `useState` hook of `ChatBox`. -/
structure ChatState where
  messages : List Message
  input : String
  uploading : Bool
  uploadStatus : String
  documents : List Document
  selectedDocIds : List String
  showMultiSelect : Bool
  useAgents : Bool
  workflowLog : List String
  isProcessing : Bool
  currentAgent : String
  sessionId : String
deriving DecidableEq, Repr

/-- The initial state: the `useState` initialisers of `ChatBox`. -/
def initialState : ChatState :=
  { messages := []
    input := ""
    uploading := false
    uploadStatus := ""
    documents := []
    selectedDocIds := []
    showMultiSelect := false
    useAgents := true
    workflowLog := []
    isProcessing := false
    currentAgent := ""
    sessionId := "" }

/-- Request payloads built by `sendMessage`: the agentic shape posted to
`/ask-v2` and the simple shape posted to `/ask`. -/
inductive Payload where
  | agentic (query : String) (top_k : Nat) (doc_ids : Option (List String))
      (session_id : Option String)
  | simple (query : String) (top_k : Nat) (source : Option String)
deriving DecidableEq, Repr

/-- The `doc_ids` field of a payload (`none` when the shape has no such field). -/
def Payload.docIdsField : Payload → Option (List String)
  | .agentic _ _ d _ => d
  | .simple _ _ _ => none

/-- The `source` field of a payload (`none` when the shape has no such field). -/
def Payload.sourceField : Payload → Option String
  | .agentic _ _ _ _ => none
  | .simple _ _ s => s

/-- The `top_k` field of a payload. -/
def Payload.topK : Payload → Nat
  | .agentic _ k _ _ => k
  | .simple _ k _ => k

/-- HTTP requests issued by the component, recorded as a trace. -/
inductive Request where
  | getDocuments
  | postUpload (file : String)
  | postAsk (endpoint : String) (payload : Payload)
deriving DecidableEq, Repr

instance : BEq Request := instBEqOfDecidableEq

/-- Response of `POST /upload-v2`; the source reads `res.data.chunks` and
`res.data.filename`. -/
structure UploadResponse where
  filename : String
  chunks : Nat
deriving DecidableEq, Repr

/-- Response of `POST /ask-v2` / `POST /ask`; the source reads
`res.data.answer`, `res.data.workflow_log` and `res.data.session_id`,
the latter two possibly absent. -/
structure AskResponse where
  answer : String
  workflow_log : Option (List String)
  session_id : Option String
deriving DecidableEq, Repr

/-- The error object caught by `sendMessage`: `err.response?.data?.detail`
is an optional string. -/
structure ErrResponse where
  detail : Option String
deriving DecidableEq, Repr

/-- JavaScript truthiness of the optional string fields read from responses:
an absent field and the empty string are falsy. -/
def truthyStr : Option String → Bool
  | none => false
  | some t => t ≠ ""

/-- `fetchDocuments`: `GET /documents`; on success replace `documents` with
`res.data.multi_docs || []` and, when the new list is non-empty and the
selection is empty, auto-select every returned document id.  On failure
(`catch`) only `console.error` runs, so the state is unchanged.  The
request outcome is passed in as `outcome` (`none` = request failed). -/
def fetchDocuments (s : ChatState) (outcome : Option (List Document)) :
    ChatState × List Request :=
  match outcome with
  | none => (s, [Request.getDocuments])
  | some multiDocs =>
    let s1 := { s with documents := multiDocs }
    if multiDocs.length > 0 ∧ s1.selectedDocIds.length = 0 then
      ({ s1 with selectedDocIds := multiDocs.map (fun d => d.doc_id) },
        [Request.getDocuments])
    else
      (s1, [Request.getDocuments])

/-- `toggleDocSelection`: `prev.includes(docId) ? prev.filter(id => id !== docId)
: [...prev, docId]`. -/
def toggleDocSelection (docId : String) (s : ChatState) : ChatState :=
  { s with selectedDocIds :=
      if docId ∈ s.selectedDocIds then
        s.selectedDocIds.filter (fun id => id ≠ docId)
      else
        s.selectedDocIds ++ [docId] }

/-- `selectAllDocs`: selection becomes the full id list of the registry. -/
def selectAllDocs (s : ChatState) : ChatState :=
  { s with selectedDocIds := s.documents.map (fun d => d.doc_id) }

/-- `deselectAllDocs`: selection becomes empty. -/
def deselectAllDocs (s : ChatState) : ChatState :=
  { s with selectedDocIds := [] }

/-- `startNewConversation`: clears transcript, session id, workflow log and
pending input. -/
def startNewConversation (s : ChatState) : ChatState :=
  { s with messages := [], sessionId := "", workflowLog := [], input := "" }

/-- `handleFileUpload`: guard on a picked file, set `uploading`/status, post
the file; on success set the status banner, `await fetchDocuments()`, then
append `res.data.filename` to the selection when truthy; on failure set the
failure banner; `finally` clears `uploading`.  The upload outcome and the
outcome of the nested registry refresh are passed in explicitly.  The
`setTimeout` that clears the status 3 s later is a separate future event and
is not part of this transition. -/
def handleFileUpload (s : ChatState) (file : Option String)
    (outcome : Option UploadResponse) (refreshOutcome : Option (List Document)) :
    ChatState × List Request :=
  match file with
  | none => (s, [])
  | some f =>
    let s1 := { s with uploading := true, uploadStatus := "Uploading..." }
    match outcome with
    | some res =>
      let s2 := { s1 with uploadStatus :=
        "✓ Uploaded: " ++ toString res.chunks ++ " chunks indexed" }
      let refreshed := fetchDocuments s2 refreshOutcome
      let s3 := refreshed.1
      let s4 :=
        if res.filename ≠ "" then
          { s3 with selectedDocIds := s3.selectedDocIds ++ [res.filename] }
        else s3
      ({ s4 with uploading := false }, Request.postUpload f :: refreshed.2)
    | none =>
      ({ s1 with uploadStatus := "✗ Upload failed", uploading := false },
        [Request.postUpload f])

/-- JavaScript `String.prototype.trim`, used by the `!input.trim()` guard of
`sendMessage`: drop whitespace from both ends (modelled structurally, over
the character list). -/
def jsTrim (s : String) : String :=
  String.mk (((s.data.dropWhile Char.isWhitespace).reverse.dropWhile
    Char.isWhitespace).reverse)

/-- The payload construction inside `sendMessage`, from the render-time
values of `useAgents`, the query text, the selection and the session id.
`session_id: sessionId || undefined` omits the field when the id is empty. -/
def buildPayload (useAgents : Bool) (query : String)
    (selectedDocIds : List String) (sessionId : String) : Payload :=
  if useAgents then
    Payload.agentic query 5
      (if selectedDocIds.length > 0 then some selectedDocIds else none)
      (if sessionId ≠ "" then some sessionId else none)
  else
    Payload.simple query 5
      (if selectedDocIds.length = 1 then some (selectedDocIds.headD "") else none)

/-- The endpoint chosen by `sendMessage` for the current mode. -/
def chooseEndpoint (useAgents : Bool) : String :=
  if useAgents then "http://localhost:8000/ask-v2" else "http://localhost:8000/ask"

/-- The token capture in `sendMessage`:
`if (res.data.session_id && !sessionId) setSessionId(res.data.session_id)`. -/
def captureSession (sessionId : String) (tok : Option String) : String :=
  if truthyStr tok ∧ sessionId = "" then tok.getD "" else sessionId

/-- The synchronous prefix of `sendMessage`, up to (and including) building
the payload and, in agentic mode, the `[1/4]` progress label — everything
that runs before `await axios.post` resolves.  Returns the updated state and
`some (endpoint, payload)` when a request is issued, `none` when the guard
`!input.trim() || isProcessing` rejects the call. -/
def sendStart (s : ChatState) : ChatState × Option (String × Payload) :=
  if jsTrim s.input = "" ∨ s.isProcessing then (s, none)
  else
    let userMessage : Message := { role := Role.user, content := s.input }
    let currentQuery := s.input
    let s1 := { s with
      input := ""
      messages := s.messages ++ [userMessage]
      isProcessing := true
      workflowLog := []
      currentAgent :=
        if s.useAgents then "Initializing multi-agent workflow..."
        else "Processing your query..." }
    let payload := buildPayload s.useAgents currentQuery s.selectedDocIds s.sessionId
    let endpoint := chooseEndpoint s.useAgents
    let s2 :=
      if s.useAgents then
        { s1 with currentAgent := "[1/4] Research Agent: Searching database..." }
      else s1
    (s2, some (endpoint, payload))

/-- The continuation of `sendMessage` after `await axios.post` settles:
the `try` tail on success, the `catch` on failure, and the `finally`
clearing `isProcessing`.  `useAgents` and `sessionId` are read from the
render-time closure, i.e. from the pre-`sendStart` state `s0`. -/
def sendResolve (s0 : ChatState) (s : ChatState)
    (outcome : Except ErrResponse AskResponse) : ChatState :=
  match outcome with
  | .ok res =>
    let s1 :=
      if s0.useAgents ∧ res.workflow_log.isSome then
        { s with workflowLog := res.workflow_log.getD [] }
      else s
    let s2 := { s1 with sessionId := captureSession s0.sessionId res.session_id }
    let assistantMessage : Message := { role := Role.assistant, content := res.answer }
    let s3 := { s2 with
      messages := s2.messages ++ [assistantMessage]
      currentAgent := "" }
    { s3 with isProcessing := false }
  | .error err =>
    let errorMsg :=
      match err.detail with
      | some d => if d = "" then "Error contacting backend." else d
      | none => "Error contacting backend."
    let errorMessage : Message := { role := Role.assistant, content := errorMsg }
    let s1 := { s with
      messages := s.messages ++ [errorMessage]
      currentAgent := "" }
    { s1 with isProcessing := false }

/-- `sendMessage` as one transition: the synchronous prefix, then — when the
guard admitted the call — the request and its continuation. -/
def sendMessage (s : ChatState) (outcome : Except ErrResponse AskResponse) :
    ChatState × List Request :=
  match sendStart s with
  | (s1, none) => (s1, [])
  | (s1, some ep) =>
    (sendResolve s s1 outcome, [Request.postAsk ep.1 ep.2])

/-- A sample document descriptor used by concrete counterexamples. -/
def sampleDoc (i : String) : Document :=
  { doc_id := i
    original_filename := i ++ ".pdf"
    file_type := "pdf"
    upload_date := "2024-01-01"
    chunks := 3 }

theorem sendStart_of_guard (s : ChatState)
    (h : jsTrim s.input = "" ∨ s.isProcessing = true) :
    sendStart s = (s, none) := by
  unfold sendStart
  rw [if_pos h]

theorem sendStart_of_no_guard (s : ChatState)
    (h1 : ¬ jsTrim s.input = "") (h2 : s.isProcessing = false) :
    sendStart s =
      ({ s with
          input := ""
          messages := s.messages ++ [{ role := Role.user, content := s.input }]
          isProcessing := true
          workflowLog := []
          currentAgent :=
            if s.useAgents then "[1/4] Research Agent: Searching database..."
            else "Processing your query..." },
        some (chooseEndpoint s.useAgents,
          buildPayload s.useAgents s.input s.selectedDocIds s.sessionId)) := by
  have hg : ¬ (jsTrim s.input = "" ∨ s.isProcessing = true) := by
    simp [h1, h2]
  unfold sendStart
  rw [if_neg hg]
  cases hu : s.useAgents <;> simp [hu]

theorem sendMessage_of_guard (s : ChatState) (o : Except ErrResponse AskResponse)
    (h : jsTrim s.input = "" ∨ s.isProcessing = true) :
    sendMessage s o = (s, []) := by
  unfold sendMessage
  rw [sendStart_of_guard s h]

theorem sendMessage_ok_eq (s : ChatState) (res : AskResponse)
    (h1 : ¬ jsTrim s.input = "") (h2 : s.isProcessing = false) :
    sendMessage s (Except.ok res) =
      ({ s with
          input := ""
          messages := s.messages ++
            [{ role := Role.user, content := s.input },
             { role := Role.assistant, content := res.answer }]
          isProcessing := false
          workflowLog :=
            if s.useAgents ∧ res.workflow_log.isSome then res.workflow_log.getD []
            else []
          currentAgent := ""
          sessionId := captureSession s.sessionId res.session_id },
        [Request.postAsk (chooseEndpoint s.useAgents)
          (buildPayload s.useAgents s.input s.selectedDocIds s.sessionId)]) := by
  unfold sendMessage
  rw [sendStart_of_no_guard s h1 h2]
  by_cases hw : s.useAgents ∧ res.workflow_log.isSome
  · simp [sendResolve, hw]
  · simp [sendResolve, hw]

theorem sendMessage_error_eq (s : ChatState) (err : ErrResponse)
    (h1 : ¬ jsTrim s.input = "") (h2 : s.isProcessing = false) :
    sendMessage s (Except.error err) =
      ({ s with
          input := ""
          messages := s.messages ++
            [{ role := Role.user, content := s.input },
             { role := Role.assistant, content :=
                match err.detail with
                | some d => if d = "" then "Error contacting backend." else d
                | none => "Error contacting backend." }]
          isProcessing := false
          workflowLog := []
          currentAgent := "" },
        [Request.postAsk (chooseEndpoint s.useAgents)
          (buildPayload s.useAgents s.input s.selectedDocIds s.sessionId)]) := by
  unfold sendMessage
  rw [sendStart_of_no_guard s h1 h2]
  simp [sendResolve]

theorem fetchDocuments_keep_nonempty (s : ChatState) (docs : List Document)
    (h : s.selectedDocIds ≠ []) :
    (fetchDocuments s (some docs)).1.selectedDocIds = s.selectedDocIds := by
  have hlen : ¬ s.selectedDocIds.length = 0 := by
    simpa [List.length_eq_zero] using h
  simp [fetchDocuments, hlen]

theorem fetchDocuments_selection_superset (s : ChatState)
    (o : Option (List Document)) :
    s.selectedDocIds ⊆ (fetchDocuments s o).1.selectedDocIds := by
  cases o with
  | none => simp [fetchDocuments]
  | some docs =>
    rcases eq_or_ne s.selectedDocIds [] with he | hne
    · simp [he]
    · rw [fetchDocuments_keep_nonempty s docs hne]
      exact List.Subset.refl _

theorem fetchDocuments_sessionId (s : ChatState) (o : Option (List Document)) :
    (fetchDocuments s o).1.sessionId = s.sessionId := by
  cases o with
  | none => rfl
  | some docs =>
    simp only [fetchDocuments]
    split <;> rfl

/-- C1: the claim is false on the code: `fetchDocuments` never removes ids
from the selection, so a refresh whose new list omits a selected id `X`
leaves `X` selected even though `X` is no longer in the registry. -/
theorem C1_counterexample :
    "X" ∈ (fetchDocuments
        { initialState with documents := [sampleDoc "X"], selectedDocIds := ["X"] }
        (some [sampleDoc "Y"])).1.selectedDocIds ∧
    "X" ∉ ((fetchDocuments
        { initialState with documents := [sampleDoc "X"], selectedDocIds := ["X"] }
        (some [sampleDoc "Y"])).1.documents.map Document.doc_id) := by
  decide

/-- C1 (amended): a registry refresh never prunes the selection: whenever
the selection is non-empty, a successful refresh leaves it exactly as it
was, even when the new document list omits selected ids, so the selection
is not kept a subset of the registry ids. -/
theorem C1_refresh_never_prunes (s : ChatState) (docs : List Document)
    (h : s.selectedDocIds ≠ []) :
    (fetchDocuments s (some docs)).1.selectedDocIds = s.selectedDocIds :=
  fetchDocuments_keep_nonempty s docs h

theorem C1_refresh_never_prunes_witness :
    (fetchDocuments
        { initialState with documents := [sampleDoc "X"], selectedDocIds := ["X"] }
        (some [sampleDoc "Y"])).1.selectedDocIds = ["X"] :=
  C1_refresh_never_prunes
    { initialState with documents := [sampleDoc "X"], selectedDocIds := ["X"] }
    [sampleDoc "Y"] (by decide)

/-- C7: the claim is false on the code: `toggleDocSelection` never consults
the registry, so toggling an id unknown to the (here empty) registry is not
a no-op — it adds the id to the selection. -/
theorem C7_counterexample :
    (toggleDocSelection "X" initialState).selectedDocIds ≠
      initialState.selectedDocIds ∧
    initialState.documents = [] := by
  decide

/-- C7 (amended): `toggleDocSelection id` flips membership of `id` in the
selection set unconditionally, whether or not `id` is a document id of the
registry; other ids keep their membership. -/
theorem C7_toggle_flips_membership (s : ChatState) (docId other : String)
    (hother : other ≠ docId) :
    ((docId ∈ (toggleDocSelection docId s).selectedDocIds) ↔
      ¬ docId ∈ s.selectedDocIds) ∧
    ((other ∈ (toggleDocSelection docId s).selectedDocIds) ↔
      other ∈ s.selectedDocIds) := by
  constructor
  · by_cases h : docId ∈ s.selectedDocIds <;>
      simp [toggleDocSelection, h, List.mem_filter]
  · by_cases h : docId ∈ s.selectedDocIds <;>
      simp [toggleDocSelection, h, List.mem_filter, hother]

theorem C7_toggle_flips_membership_witness :
    (("A" ∈ (toggleDocSelection "A" { initialState with selectedDocIds := ["A", "B"] }).selectedDocIds) ↔
      ¬ "A" ∈ ["A", "B"]) ∧
    (("B" ∈ (toggleDocSelection "A" { initialState with selectedDocIds := ["A", "B"] }).selectedDocIds) ↔
      "B" ∈ ["A", "B"]) :=
  C7_toggle_flips_membership { initialState with selectedDocIds := ["A", "B"] }
    "A" "B" (by decide)

/-- C8: on a successful refresh returning a non-empty document list while
the selection is empty (in particular the first such refresh), the new
selection is exactly the returned id list; and a refresh never auto-
overrides a non-empty selection. -/
theorem C8_auto_select_all (s : ChatState) (docs : List Document)
    (hsel : s.selectedDocIds = []) (hdocs : docs ≠ []) :
    (fetchDocuments s (some docs)).1.selectedDocIds =
      docs.map Document.doc_id ∧
    ∀ t : ChatState, t.selectedDocIds ≠ [] →
      ∀ ds : List Document,
        (fetchDocuments t (some ds)).1.selectedDocIds = t.selectedDocIds := by
  constructor
  · have hlen : docs.length > 0 := List.length_pos.mpr hdocs
    simp [fetchDocuments, hsel, hlen]
  · intro t ht ds
    exact fetchDocuments_keep_nonempty t ds ht

theorem C8_auto_select_all_witness :
    (fetchDocuments initialState (some [sampleDoc "X", sampleDoc "Y"])).1.selectedDocIds =
      ["X", "Y"] :=
  (C8_auto_select_all initialState [sampleDoc "X", sampleDoc "Y"] rfl
    (by decide)).1

/-- C2: payload shape by mode: in agentic mode `top_k = 5` and `doc_ids` is
the selection list when non-empty and `null` when empty; in simple mode
`top_k = 5` and `source` is the single selected id exactly when the
selection has exactly one element, and `null` otherwise. -/
theorem C2_payload_by_mode (q tok : String) (sel : List String) :
    ((buildPayload true q sel tok).topK = 5 ∧
      (sel ≠ [] → (buildPayload true q sel tok).docIdsField = some sel) ∧
      (sel = [] → (buildPayload true q sel tok).docIdsField = none)) ∧
    ((buildPayload false q sel tok).topK = 5 ∧
      (∀ d, sel = [d] → (buildPayload false q sel tok).sourceField = some d) ∧
      (¬ sel.length = 1 → (buildPayload false q sel tok).sourceField = none)) := by
  refine ⟨⟨?_, ?_, ?_⟩, ?_, ?_, ?_⟩
  · by_cases h : sel.length > 0 <;> simp [buildPayload, Payload.topK, h]
  · intro h
    have hlen : sel.length > 0 := List.length_pos.mpr h
    simp [buildPayload, Payload.docIdsField, hlen]
  · intro h
    subst h
    simp [buildPayload, Payload.docIdsField]
  · by_cases h : sel.length = 1 <;> simp [buildPayload, Payload.topK, h]
  · intro d h
    subst h
    simp [buildPayload, Payload.sourceField]
  · intro h
    simp [buildPayload, Payload.sourceField, h]

theorem C2_payload_by_mode_witness :
    (buildPayload true "q" ["d1", "d2"] "").docIdsField = some ["d1", "d2"] ∧
    (buildPayload false "q" ["d1", "d2"] "").sourceField = none ∧
    (buildPayload false "q" ["d1"] "").sourceField = some "d1" :=
  ⟨(C2_payload_by_mode "q" "" ["d1", "d2"]).1.2.1 (by decide),
    (C2_payload_by_mode "q" "" ["d1", "d2"]).2.2.2 (by decide),
    (C2_payload_by_mode "q" "" ["d1"]).2.2.1 "d1" rfl⟩

/-- C5: a `sendMessage` invocation while a query is in flight, or whose
input is empty after trimming, leaves the whole state unchanged and issues
no request: no duplicate user message is appended. -/
theorem C5_reentrant_send_noop (s : ChatState)
    (o : Except ErrResponse AskResponse)
    (h : jsTrim s.input = "" ∨ s.isProcessing = true) :
    sendMessage s o = (s, []) :=
  sendMessage_of_guard s o h

theorem C5_reentrant_send_noop_witness :
    sendMessage { initialState with input := "x", isProcessing := true }
        (Except.error { detail := none }) =
      ({ initialState with input := "x", isProcessing := true }, []) :=
  C5_reentrant_send_noop
    { initialState with input := "x", isProcessing := true }
    (Except.error { detail := none }) (Or.inr rfl)

theorem handleFileUpload_sessionId (s : ChatState) (file : Option String)
    (u : Option UploadResponse) (ro : Option (List Document)) :
    (handleFileUpload s file u ro).1.sessionId = s.sessionId := by
  cases file with
  | none => rfl
  | some f =>
    cases u with
    | none => rfl
    | some res =>
      simp only [handleFileUpload]
      split <;> simp [fetchDocuments_sessionId]

theorem sendMessage_sessionId_of_ne (s : ChatState)
    (o : Except ErrResponse AskResponse) (hs : s.sessionId ≠ "") :
    (sendMessage s o).1.sessionId = s.sessionId := by
  by_cases hg : jsTrim s.input = "" ∨ s.isProcessing = true
  · rw [sendMessage_of_guard s o hg]
  · push_neg at hg
    obtain ⟨h1, h2⟩ := hg
    have h2f : s.isProcessing = false := by
      cases hp : s.isProcessing
      · rfl
      · exact absurd hp h2
    cases o with
    | ok res =>
      rw [sendMessage_ok_eq s res h1 h2f]
      simp [captureSession, hs]
    | error err =>
      rw [sendMessage_error_eq s err h1 h2f]

/-- C3: the session token is write-once: once non-empty no response capture
changes it (capturing `A` then `B` leaves it at `A`), every other operation
preserves it, and only the explicit reset (`startNewConversation`) returns
it to the unset value `""`. -/
theorem C3_token_write_once (s : ChatState)
    (o : Except ErrResponse AskResponse) (A B : String)
    (hA : A ≠ "") (hs : s.sessionId ≠ "") :
    captureSession (captureSession "" (some A)) (some B) = A ∧
    captureSession s.sessionId (some B) = s.sessionId ∧
    (sendMessage s o).1.sessionId = s.sessionId ∧
    (startNewConversation s).sessionId = "" ∧
    (∀ docs, (fetchDocuments s docs).1.sessionId = s.sessionId) ∧
    (∀ id, (toggleDocSelection id s).sessionId = s.sessionId) ∧
    (selectAllDocs s).sessionId = s.sessionId ∧
    (deselectAllDocs s).sessionId = s.sessionId ∧
    (∀ file u ro, (handleFileUpload s file u ro).1.sessionId = s.sessionId) := by
  refine ⟨?_, ?_, sendMessage_sessionId_of_ne s o hs, rfl,
    fun docs => fetchDocuments_sessionId s docs, fun _ => rfl, rfl, rfl,
    fun file u ro => handleFileUpload_sessionId s file u ro⟩
  · simp [captureSession, truthyStr, hA]
  · simp [captureSession, hs]

theorem C3_token_write_once_witness :
    captureSession (captureSession "" (some "A")) (some "B") = "A" ∧
    captureSession "sess" (some "B") = "sess" :=
  ⟨(C3_token_write_once { initialState with sessionId := "sess" }
      (Except.error { detail := none }) "A" "B" (by decide) (by decide)).1,
   (C3_token_write_once { initialState with sessionId := "sess" }
      (Except.error { detail := none }) "A" "B" (by decide) (by decide)).2.1⟩

/-- C4: a failed query appends exactly one assistant message (after the
optimistic user message), whose content is the backend `detail` when that
is present and non-empty and otherwise the generic fallback
`"Error contacting backend."` — never the empty string — and the failure is
recovered inside the dispatcher (the transition is total), leaving the
session token and the selection set unchanged. -/
theorem C4_error_recovered (s : ChatState) (err : ErrResponse)
    (h1 : ¬ jsTrim s.input = "") (h2 : s.isProcessing = false) :
    ∃ c : String,
      (sendMessage s (Except.error err)).1.messages =
        s.messages ++ [{ role := Role.user, content := s.input },
          { role := Role.assistant, content := c }] ∧
      c ≠ "" ∧
      (∀ d, err.detail = some d → d ≠ "" → c = d) ∧
      (err.detail = none → c = "Error contacting backend.") ∧
      (sendMessage s (Except.error err)).1.sessionId = s.sessionId ∧
      (sendMessage s (Except.error err)).1.selectedDocIds = s.selectedDocIds := by
  have hmsg := sendMessage_error_eq s err h1 h2
  rcases herr : err.detail with _ | d
  · refine ⟨"Error contacting backend.", ?_, by decide, ?_, fun _ => rfl, ?_, ?_⟩
    · rw [hmsg]
      simp [herr]
    · intro d hd
      simp at hd
    · rw [hmsg]
    · rw [hmsg]
  · by_cases hde : d = ""
    · refine ⟨"Error contacting backend.", ?_, by decide, ?_, fun _ => rfl, ?_, ?_⟩
      · rw [hmsg]
        simp [herr, hde]
      · intro d2 hd2 hne2
        injection hd2 with hdd
        subst hdd
        exact absurd hde hne2
      · rw [hmsg]
      · rw [hmsg]
    · refine ⟨d, ?_, hde, ?_, ?_, ?_, ?_⟩
      · rw [hmsg]
        simp [herr, hde]
      · intro d2 hd2 _
        injection hd2
      · intro hnone
        simp at hnone
      · rw [hmsg]
      · rw [hmsg]

theorem C4_error_recovered_witness :
    (sendMessage { initialState with input := "hi" }
        (Except.error { detail := none })).1.messages =
      [{ role := Role.user, content := "hi" },
       { role := Role.assistant, content := "Error contacting backend." }] := by
  obtain ⟨c, hme, hc, hsome, hnone, hsess, hsel⟩ :=
    C4_error_recovered { initialState with input := "hi" } { detail := none }
      (by decide) rfl
  rw [hnone rfl] at hme
  simpa using hme

/-- C10: whenever `sendMessage` passes its guard, the pending input field is
cleared already by the synchronous prefix (before the request resolves),
stays empty whatever the outcome — in particular it is not restored on
failure — and the typed text survives as the appended user message. -/
theorem C10_input_cleared (s : ChatState)
    (o : Except ErrResponse AskResponse)
    (h1 : ¬ jsTrim s.input = "") (h2 : s.isProcessing = false) :
    (sendStart s).1.input = "" ∧
    (sendMessage s o).1.input = "" ∧
    ({ role := Role.user, content := s.input } : Message) ∈
      (sendMessage s o).1.messages := by
  refine ⟨?_, ?_, ?_⟩
  · rw [sendStart_of_no_guard s h1 h2]
  · cases o with
    | ok res => rw [sendMessage_ok_eq s res h1 h2]
    | error err => rw [sendMessage_error_eq s err h1 h2]
  · cases o with
    | ok res =>
      rw [sendMessage_ok_eq s res h1 h2]
      simp
    | error err =>
      rw [sendMessage_error_eq s err h1 h2]
      simp

theorem C10_input_cleared_witness :
    (sendMessage { initialState with input := "hi" }
        (Except.error { detail := none })).1.input = "" :=
  (C10_input_cleared { initialState with input := "hi" }
    (Except.error { detail := none }) (by decide) rfl).2.1

theorem fetchDocuments_trace (s : ChatState) (o : Option (List Document)) :
    (fetchDocuments s o).2 = [Request.getDocuments] := by
  cases o with
  | none => rfl
  | some docs =>
    simp only [fetchDocuments]
    split <;> rfl

/-- C6: every admitted `sendMessage` replaces the Workflow Log with the
empty sequence at the start of the query, and — for responses conforming to
the HTTP contract, under which the simple `/ask` endpoint supplies no
workflow log — a response that carries a workflow log fully replaces the
log with it, while a response (or failure) that carries none leaves it
empty. -/
theorem C6_workflow_log_replaced (s : ChatState) (res : AskResponse)
    (err : ErrResponse)
    (h1 : ¬ jsTrim s.input = "") (h2 : s.isProcessing = false)
    (hconf : s.useAgents = false → res.workflow_log = none) :
    (sendStart s).1.workflowLog = [] ∧
    (∀ wl, res.workflow_log = some wl →
      (sendMessage s (Except.ok res)).1.workflowLog = wl) ∧
    (res.workflow_log = none →
      (sendMessage s (Except.ok res)).1.workflowLog = []) ∧
    (sendMessage s (Except.error err)).1.workflowLog = [] := by
  refine ⟨?_, ?_, ?_, ?_⟩
  · rw [sendStart_of_no_guard s h1 h2]
  · intro wl hwl
    rw [sendMessage_ok_eq s res h1 h2]
    cases hu : s.useAgents
    · rw [hconf hu] at hwl
      simp at hwl
    · simp [hwl, hu]
  · intro hwl
    rw [sendMessage_ok_eq s res h1 h2]
    simp [hwl]
  · rw [sendMessage_error_eq s err h1 h2]

theorem C6_workflow_log_replaced_witness :
    (sendMessage { initialState with input := "hi" }
        (Except.ok (AskResponse.mk "ans" (some ["step1", "step2"]) none))).1.workflowLog =
      ["step1", "step2"] :=
  (C6_workflow_log_replaced { initialState with input := "hi" }
    (AskResponse.mk "ans" (some ["step1", "step2"]) none)
    { detail := none } (by decide) rfl (by decide)).2.1 ["step1", "step2"] rfl

/-- C9: on upload success exactly one registry refresh request is issued
(the trace is the upload post followed by exactly one registry GET) and the
new document id is added to the refreshed selection by union — the prior
selection is preserved, not replaced; on upload failure the registry, the
selection and the request trace are untouched by any refresh. -/
theorem C9_upload (s : ChatState) (f : String) (res : UploadResponse)
    (ro : Option (List Document)) (hfn : res.filename ≠ "") :
    (handleFileUpload s (some f) (some res) ro).2 =
      [Request.postUpload f, Request.getDocuments] ∧
    res.filename ∈ (handleFileUpload s (some f) (some res) ro).1.selectedDocIds ∧
    s.selectedDocIds ⊆ (handleFileUpload s (some f) (some res) ro).1.selectedDocIds ∧
    (∃ pre : List String,
      (handleFileUpload s (some f) (some res) ro).1.selectedDocIds =
        pre ++ [res.filename] ∧ s.selectedDocIds ⊆ pre) ∧
    (handleFileUpload s (some f) none ro).1.documents = s.documents ∧
    (handleFileUpload s (some f) none ro).1.selectedDocIds = s.selectedDocIds ∧
    (handleFileUpload s (some f) none ro).2 = [Request.postUpload f] := by
  refine ⟨?_, ?_, ?_, ?_, rfl, rfl, rfl⟩
  · simp [handleFileUpload, hfn, fetchDocuments_trace]
  · simp [handleFileUpload, hfn]
  · have hsub := fetchDocuments_selection_superset { s with uploading := true, uploadStatus := "✓ Uploaded: " ++ toString res.chunks ++ " chunks indexed" } ro
    simp only [handleFileUpload]
    split
    · intro x hx
      exact List.mem_append.mpr (Or.inl (hsub hx))
    · next h => exact absurd hfn h
  · have hsub := fetchDocuments_selection_superset { s with uploading := true, uploadStatus := "✓ Uploaded: " ++ toString res.chunks ++ " chunks indexed" } ro
    simp only [handleFileUpload]
    split
    · exact ⟨_, rfl, hsub⟩
    · next h => exact absurd hfn h

theorem C9_upload_witness :
    (handleFileUpload { initialState with selectedDocIds := ["A"] } (some "f.pdf")
        (some { filename := "newdoc", chunks := 4 })
        (some [sampleDoc "A", sampleDoc "newdoc"])).2 =
      [Request.postUpload "f.pdf", Request.getDocuments] :=
  (C9_upload { initialState with selectedDocIds := ["A"] } "f.pdf"
    { filename := "newdoc", chunks := 4 } (some [sampleDoc "A", sampleDoc "newdoc"])
    (by decide)).1
